import Mathlib

/-!
Verification development for the file-to-api backend engine.

The definitions below are a shallow embedding of the Python source under
`backend/engine/` and `backend/core/`:

* `schema.py` — type inference (`infer_field_type` and the per-type
  detectors), field-name sanitization (`sanitize_field_name`) and schema
  detection (`detect_schema`, embedded column-wise as `analyzeColumn`);
* `table_builder.py` — value conversion (`convert_value_for_sqlite`),
  the query/insert primitives (`query_table`, `get_single_row`,
  `insert_row`) modelled over an explicit table state;
* `processor.py` — the processing pipeline state machine
  (`process_uploaded_file`) with each step's outcome made explicit;
* `api_generator.py` / `router.py` / `core/views.py` — the registry
  state and dataset deletion (`destroy`).

Modelling conventions:

* pandas cells are embedded as `Cell`: the string rendering of the raw
  value together with oracle fields recording what the external parsers
  (`pd.to_numeric`, `pd.to_datetime`) return for it.  The detectors in
  the source consume only these projections of a value.
* floating point success rates (`count / len` compared against 0.9 and
  0.95) are embedded as exact integer cross-multiplications
  (`100 * count ≥ 95 * len` and so on).  At every boundary exercised by
  a theorem below, the IEEE quotients round to the decimal literal
  exactly, so the integer comparison agrees with the Python one.
* Python's division of `0` by a length of `0` yields a numpy `nan`
  (every comparison with which is false); the empty-series cases of the
  detectors are embedded to follow that behaviour, as noted inline.
-/

namespace FileToApi

/-- Semantic data type of a column (`data_type` strings in the source). -/
inductive DataType where
  | text | integer | float | boolean | date | datetime
deriving DecidableEq, Repr

/-- Django field class names produced by `infer_field_type`. -/
inductive FieldType where
  | IntegerField | FloatField | BooleanField
  | DateTimeField | DateField | CharField | TextField
deriving DecidableEq, Repr

/-- The result of `pd.to_datetime` on one cell: an abstract day index,
the time-of-day components inspected by `is_date_column` (`dt.hour`,
`dt.minute`, `dt.second`; sub-second parts are not inspected by the
source and are not modelled), the `isoformat()` rendering and the
`str()` rendering used by `convert_value_for_sqlite`. -/
structure Stamp where
  day : Int
  hour : Nat
  minute : Nat
  second : Nat
  iso : String
  pystr : String
deriving DecidableEq, Repr

/-- One non-null cell of an object-dtype column: `s` is `str(value)`,
`num` records what `pd.to_numeric` returns for it (`none` = NaN), and
`dt` records what `pd.to_datetime` returns (`none` = NaT).  Rationals
stand for the parsed floating point values. -/
structure Cell where
  s : String
  num : Option Rat
  dt : Option Stamp
deriving DecidableEq, Repr

/-! ## Name sanitizer (`schema.py: sanitize_field_name`) -/

/-- Reserved Python/Django keywords avoided by the sanitizer
(`RESERVED_WORDS` in `schema.py`). -/
def RESERVED_WORDS : List String :=
  ["id", "pk", "class", "def", "return", "if", "else", "for", "while", "import",
   "from", "as", "try", "except", "finally", "with", "lambda", "yield", "global",
   "nonlocal", "assert", "pass", "break", "continue", "raise", "del", "in", "is",
   "not", "and", "or", "true", "false", "none", "self", "cls"]

/-- Whitespace for Python `str.strip()` (ASCII range; `\x0b`/`\x0c` are
stripped by Python in addition to the characters of `Char.isWhitespace`). -/
def pyIsSpace (c : Char) : Bool :=
  c.isWhitespace || c == '\x0b' || c == '\x0c'

/-- Drop trailing characters satisfying `p` (helper for `str.strip`). -/
def dropTrailing (p : Char → Bool) (l : List Char) : List Char :=
  (l.reverse.dropWhile p).reverse

/-- Python `str.strip()` on a character list. -/
def pyStrip (l : List Char) : List Char :=
  dropTrailing pyIsSpace (l.dropWhile pyIsSpace)

/-- Characters kept verbatim by the regex `[^a-z0-9_]` replacement:
lowercase ASCII letters, digits and underscore. -/
def isAllowedChar (c : Char) : Bool :=
  ('a' ≤ c && c ≤ 'z') || ('0' ≤ c && c ≤ '9') || c == '_'

/-- `re.sub(r'[^a-z0-9_]', '_', ·)` on one character. -/
def replaceChar (c : Char) : Char :=
  if isAllowedChar c then c else '_'

/-- `re.sub(r'_+', '_', ·)`: collapse runs of underscores, keeping the
first of each adjacent pair of underscores only once. -/
def squashUnderscores : List Char → List Char
  | [] => []
  | [c] => [c]
  | a :: b :: rest =>
      if a == '_' && b == '_' then squashUnderscores (b :: rest)
      else a :: squashUnderscores (b :: rest)

/-- `str.strip('_')`: drop leading and trailing underscores. -/
def stripUnderscores (l : List Char) : List Char :=
  dropTrailing (· == '_') (l.dropWhile (· == '_'))

/-- Stages of `sanitize_field_name` from `schema.py`, on character
lists.  `saniCore` covers the source's first four lines: strip and
lowercase, replace characters outside `[a-z0-9_]` with `_`, collapse
underscore runs, strip leading/trailing underscores. -/
def saniCore (l : List Char) : List Char :=
  stripUnderscores (squashUnderscores (((pyStrip l).map Char.toLower).map replaceChar))

/-- `if not name: name = 'column'`. -/
def saniNonEmpty (l : List Char) : List Char :=
  if (saniCore l).isEmpty then "column".data else saniCore l

/-- `if name[0].isdigit(): name = f'col_{name}'`. -/
def saniDigitMark (l : List Char) : List Char :=
  if (saniNonEmpty l).headD 'a' |>.isDigit then "col_".data ++ saniNonEmpty l
  else saniNonEmpty l

/-- `if name in RESERVED_WORDS: name = f'field_{name}'`. -/
def saniReservedMark (l : List Char) : List Char :=
  if RESERVED_WORDS.any (fun w => w.data == saniDigitMark l) then
    "field_".data ++ saniDigitMark l
  else saniDigitMark l

/-- `sanitize_field_name` on character lists: the stages above followed
by truncation to 63 characters. -/
def sanitizeChars (l : List Char) : List Char :=
  if (saniReservedMark l).length > 63 then (saniReservedMark l).take 63
  else saniReservedMark l

/-- `sanitize_field_name` on strings. -/
def sanitize_field_name (name : String) : String :=
  String.mk (sanitizeChars name.data)

/-! ## Type detectors (`schema.py`) -/

/-- The fixed boolean-token vocabulary of `is_boolean_column`
(the capitalised entries are redundant after lowering, but are kept as
written in the source). -/
def booleanValues : List String :=
  ["true", "false", "yes", "no", "1", "0", "t", "f", "y", "n",
   "1.0", "0.0", "True", "False", "TRUE", "FALSE", "YES", "NO"]

/-- `series.astype(str).str.lower().str.strip()` on one cell. -/
def lowerStrip (s : String) : String :=
  String.mk (pyStrip (s.data.map Char.toLower))

/-- `is_boolean_column`: every (lowercased, stripped) value lies in the
boolean vocabulary.  The source forms the set of unique values and tests
it for inclusion, which is the same as testing every value. -/
def is_boolean_column (cells : List Cell) : Bool :=
  cells.all (fun c => booleanValues.contains (lowerStrip c.s))

/-- Values of the column successfully parsed by `pd.to_numeric`. -/
def numParsed (cells : List Cell) : List Rat :=
  cells.filterMap Cell.num

/-- Values of the column successfully parsed by `pd.to_datetime`. -/
def dtParsed (cells : List Cell) : List Stamp :=
  cells.filterMap Cell.dt

/-- `is_integer_column` (threshold 0.95): enough values parse
numerically and every parsed value is integral.  `success_rate < 0.95`
is embedded as `100 * parsed < 95 * len`; on an empty series the Python
rate is `nan` (the `<` guard is false) and the final `.all()` over an
empty frame is true, which the embedding reproduces. -/
def is_integer_column (cells : List Cell) : Bool :=
  if cells.length != 0 && decide (100 * (numParsed cells).length < 95 * cells.length) then
    false
  else
    (numParsed cells).all (fun q => q.den == 1)

/-- `is_float_column` (threshold 0.95).  On an empty series the Python
rate is `nan` and `nan >= 0.95` is false, hence the length guard. -/
def is_float_column (cells : List Cell) : Bool :=
  decide (cells.length ≠ 0) &&
    decide (100 * (numParsed cells).length ≥ 95 * cells.length)

/-- Parsed values whose time-of-day is exactly midnight
(`dt.hour == 0 & dt.minute == 0 & dt.second == 0`). -/
def zeroTime (cells : List Cell) : List Stamp :=
  (dtParsed cells).filter (fun t => t.hour == 0 && t.minute == 0 && t.second == 0)

/-- `is_date_column` (threshold 0.9): enough values parse as datetimes
and `is_date.mean() > 0.95` — note the strict inequality in the source.
On an empty series the rate guard compares `nan` (false) and the mean of
an empty frame is `nan`, so the result is false, as the embedding
computes. -/
def is_date_column (cells : List Cell) : Bool :=
  if cells.length != 0 && decide (100 * (dtParsed cells).length < 90 * cells.length) then
    false
  else
    decide (100 * (zeroTime cells).length > 95 * (dtParsed cells).length)

/-- `is_datetime_column` (threshold 0.9). -/
def is_datetime_column (cells : List Cell) : Bool :=
  decide (cells.length ≠ 0) &&
    decide (100 * (dtParsed cells).length ≥ 90 * cells.length)

/-- Maximum string length over the column (`astype(str).str.len().max()`). -/
def maxStrLen (cells : List Cell) : Nat :=
  (cells.map (fun c => c.s.length)).foldr max 0

/-- `infer_field_type` for an object-dtype column, in the order the
SOURCE checks the detectors: boolean, then DATETIME, then DATE, then
integer, then float, then text.  (The function's own docstring instead
lists boolean, integer, float, date, datetime.) -/
def infer_field_type (cells : List Cell) : FieldType × DataType × Option Nat :=
  if is_boolean_column cells then (.BooleanField, .boolean, none)
  else if is_datetime_column cells then (.DateTimeField, .datetime, none)
  else if is_date_column cells then (.DateField, .date, none)
  else if is_integer_column cells then (.IntegerField, .integer, none)
  else if is_float_column cells then (.FloatField, .float, none)
  else if maxStrLen cells ≤ 255 then (.CharField, .text, some (min (maxStrLen cells * 2) 500))
  else (.TextField, .text, none)

/-- Modelled from the spec (and from the docstring of
`infer_field_type` itself): the detector cascade in the documented
priority order boolean → integer → float → date-only → date-time →
text, with the same detectors and the same text fallback.  Used only to
compare against the implemented order. -/
def infer_field_type_doc (cells : List Cell) : FieldType × DataType × Option Nat :=
  if is_boolean_column cells then (.BooleanField, .boolean, none)
  else if is_integer_column cells then (.IntegerField, .integer, none)
  else if is_float_column cells then (.FloatField, .float, none)
  else if is_date_column cells then (.DateField, .date, none)
  else if is_datetime_column cells then (.DateTimeField, .datetime, none)
  else if maxStrLen cells ≤ 255 then (.CharField, .text, some (min (maxStrLen cells * 2) 500))
  else (.TextField, .text, none)

/-! ## Schema detection (`schema.py: detect_schema`) -/

/-- One entry of the list returned by `detect_schema`. -/
structure FieldInfo where
  name : String
  field_name : String
  field_type : FieldType
  data_type : DataType
  nullable : Bool
  unique : Bool
  max_length : Option Nat
  sample_values : List Cell
  position : Nat
deriving DecidableEq, Repr

/-- A DataFrame as `detect_schema` sees it: the total row count
(`len(df)`) and the labelled columns, each a list of optional cells
(`none` = null). -/
structure DataFrame where
  nrows : Nat
  cols : List (String × List (Option Cell))

/-- The body of `detect_schema`'s per-column loop.  `sample_values` is
`head(5)` of the non-null values (the source additionally renders
timestamp samples as ISO strings for JSON transport, a display step not
modelled here). -/
def analyzeColumn (nrows : Nat) (i : Nat) (name : String)
    (col : List (Option Cell)) : FieldInfo :=
  let nonNull := col.filterMap id
  if nonNull.isEmpty then
    { name := name, field_name := sanitize_field_name name,
      field_type := .TextField, data_type := .text,
      nullable := true, unique := false, max_length := none,
      sample_values := [], position := i }
  else
    let r := infer_field_type nonNull
    { name := name, field_name := sanitize_field_name name,
      field_type := r.1, data_type := r.2.1,
      nullable := col.any (fun c => c.isNone),
      -- uniqueness only checked when len(df) <= 10000, else False
      unique := decide (nrows ≤ 10000) && (nonNull.dedup.length == nonNull.length),
      max_length := r.2.2,
      sample_values := nonNull.take 5, position := i }

/-- `detect_schema`: analyze every column in order. -/
def detect_schema (df : DataFrame) : List FieldInfo :=
  df.cols.enum.map (fun p => analyzeColumn df.nrows p.1 p.2.1 p.2.2)

/-- The duplicate-label renaming pass of
`FileParser._validate_dataframe` (`parser.py`): raw labels already seen
get `_1`, `_2`, … appended, in first-seen order.  Note it runs on the
RAW labels, before any sanitization. -/
def renameDuplicateLabels (labels : List String) : List String :=
  go [] labels
where
  countPrev (seen : List String) (l : String) : Nat :=
    seen.countP (fun s => s == l)
  go (seen : List String) : List String → List String
    | [] => []
    | l :: rest =>
        let n := countPrev seen l
        (if n = 0 then l else l ++ "_" ++ toString n) :: go (l :: seen) rest

/-! ## Value conversion (`schema.py: convert_dataframe_types` and
`table_builder.py: convert_value_for_sqlite`) -/

/-- A Python value held in a DataFrame cell or passed to `insert_row`:
a string (with its numeric / datetime parse oracles), a bool, an int, a
float (as an exact rational) or a timestamp. -/
inductive Value where
  | vstr (s : String) (num : Option Rat) (ts : Option Stamp)
  | vbool (b : Bool)
  | vint (n : Int)
  | vfloat (q : Rat)
  | vts (t : Stamp)
deriving DecidableEq, Repr

/-- A value as stored in SQLite. -/
inductive Sql where
  | int (n : Int)
  | real (q : Rat)
  | text (s : String)
deriving DecidableEq, Repr

/-- Python `str(value)`.  Non-integral floats render through an
abstract placeholder (never exercised by the theorems below);
timestamps use their recorded `str()` rendering. -/
def pyStr : Value → String
  | .vstr s _ _ => s
  | .vbool b => if b then "True" else "False"
  | .vint n => toString n
  | .vfloat q => if q.den = 1 then toString q.num ++ ".0" else toString q.num ++ "/" ++ toString q.den
  | .vts t => t.pystr

/-- Python `float(value)`: ints and floats numerically, bools as 0/1,
strings through the numeric parse oracle (identified with the
`pd.to_numeric` oracle), timestamps raise `TypeError` (`none`). -/
def pyFloat : Value → Option Rat
  | .vstr _ num _ => num
  | .vbool b => some (if b then 1 else 0)
  | .vint n => some (n : Rat)
  | .vfloat q => some q
  | .vts _ => none

/-- `pd.to_datetime` on one value: timestamps pass through, strings use
the parse oracle.  Interpreting raw numbers as epoch offsets is not
modelled (`none`); no theorem below feeds numbers to the date path. -/
def pyToDatetime : Value → Option Stamp
  | .vstr _ _ ts => ts
  | .vts t => some t
  | _ => none

/-- Python `int(float(value))`: truncation toward zero. -/
def ratTruncToInt (q : Rat) : Int :=
  if 0 ≤ q then q.floor else q.ceil

/-- The truthy boolean-token list of `convert_value_for_sqlite` and of
`convert_dataframe_types` (`['true', 'yes', '1', 't', 'y', '1.0']`). -/
def truthyTokens : List String :=
  ["true", "yes", "1", "t", "y", "1.0"]

/-- Lowercase a string (`str.lower()`), without stripping. -/
def lowerStr (s : String) : String :=
  String.mk (s.data.map Char.toLower)

/-- `convert_value_for_sqlite` from `table_builder.py`, for a value
already known to be present (its leading `pd.isna` test is the `none`
case of `pyConvertOpt` below). -/
def convert_value_for_sqlite (v : Value) : DataType → Option Sql
  | .boolean =>
      match v with
      | .vbool b => some (.int (if b then 1 else 0))
      | _ => some (.int (if truthyTokens.contains (lowerStrip (pyStr v)) then 1 else 0))
  | .integer => (pyFloat v).map (fun q => .int (ratTruncToInt q))
  | .float => (pyFloat v).map .real
  | .date =>
      match v with
      | .vts t => some (.text t.iso)
      | _ => some (.text (pyStr v))
  | .datetime =>
      match v with
      | .vts t => some (.text t.iso)
      | _ => some (.text (pyStr v))
  | .text => some (.text (pyStr v))

/-- `convert_value_for_sqlite` on an optional value: `pd.isna(value)`
gives SQL NULL. -/
def pyConvertOpt (ov : Option Value) (dt : DataType) : Option Sql :=
  match ov with
  | none => none
  | some v => convert_value_for_sqlite v dt

/-- One cell of `convert_dataframe_types` (`schema.py`), the column-wise
typing pass run before `bulk_insert`.  For booleans, note that
`astype(str)` renders a missing cell as the string `"nan"`, which is not
a truthy token, so missing boolean cells become `False` — they do NOT
stay null.  For integers the `astype('Int64')` step is represented by
the numeric parse itself: when that cast raises (fractional values),
the source leaves the raw column in place and `bulk_insert` applies
`int(float(value))`, which agrees cell-wise with truncating the parsed
numeric value. -/
def df_convert (dt : DataType) (cell : Option Value) : Option Value :=
  match dt with
  | .boolean =>
      match cell with
      | none => some (.vbool false)
      | some v => some (.vbool (truthyTokens.contains (lowerStr (pyStr v))))
  | .integer => (cell.bind pyFloat).map .vfloat
  | .float => (cell.bind pyFloat).map .vfloat
  | .date => (cell.bind pyToDatetime).map .vts
  | .datetime => (cell.bind pyToDatetime).map .vts
  | .text => cell

/-- What `bulk_insert` stores for one source cell of a column with
semantic type `dt`: the cell passes through `convert_dataframe_types`
and then the per-row `pd.isna` / `convert_value_for_sqlite` logic of
`bulk_insert`. -/
def storedValue (dt : DataType) (cell : Option Value) : Option Sql :=
  pyConvertOpt (df_convert dt cell) dt

/-- Modelled from the spec's words for the bulk-load coercion, amended
to the behaviour the code actually has for booleans: booleans are
stored as 0/1 with 1 exactly for the lowercased truthy tokens and 0 for
everything else INCLUDING missing cells; integers truncate the parsed
numeric value toward zero; floats store the parsed numeric value;
dates/datetimes store the ISO-8601 rendering of the parsed timestamp;
text stores the string coercion; for every non-boolean type a missing
or unparseable cell is SQL NULL. -/
def storedValueSpec (dt : DataType) (cell : Option Value) : Option Sql :=
  match dt with
  | .boolean =>
      some (.int (match cell with
        | none => 0
        | some v => if truthyTokens.contains (lowerStr (pyStr v)) then 1 else 0))
  | .integer => (cell.bind pyFloat).map (fun q => .int (ratTruncToInt q))
  | .float => (cell.bind pyFloat).map .real
  | .date => (cell.bind pyToDatetime).map (fun t => .text t.iso)
  | .datetime => (cell.bind pyToDatetime).map (fun t => .text t.iso)
  | .text => cell.map (fun v => .text (pyStr v))

/-! ## Dynamic table state (`table_builder.py`) -/

/-- A row of a backing table: the autoincrement `id` plus one stored
value per descriptor column, in descriptor order. -/
def Row : Type := Nat × List (Option Sql)

instance : DecidableEq Row := inferInstanceAs (DecidableEq (Nat × List (Option Sql)))

/-- A backing table: its rows in insertion order and the next
`AUTOINCREMENT` id. -/
structure Table where
  nextId : Nat
  rows : List Row

/-- Python truthiness of an optional integer argument (`if limit:`):
`None` and `0` are both falsy. -/
def pyTruthyNat : Option Nat → Bool
  | none => false
  | some n => n != 0

/-- Python truthiness of an optional filter dict (`if filters:`): the
empty dict is falsy. -/
def pyTruthyFilters : Option (List (String × Sql)) → Bool
  | none => false
  | some fs => !fs.isEmpty

/-- Python truthiness of the optional `order_by` string: the empty
string is falsy. -/
def pyTruthyStr : Option String → Bool
  | none => false
  | some s => !s.isEmpty

/-- The value the SQL engine sees for `field` in a row: the surrogate
key under `"id"`, otherwise the stored cell at the field's descriptor
position.  `none` (outer) means the field names no column; the source
would raise an SQL error there, which no claim exercises, and the
filter treats it as matching nothing. -/
def rowValue (cols : List FieldInfo) (r : Row) (field : String) : Option (Option Sql) :=
  if field == "id" then some (some (.int (r.1 : Int)))
  else
    match cols.findIdx? (fun c => c.field_name == field) with
    | some i => r.2.get? i
    | none => none

/-- SQL equality filtering (`"field" = ?`): a NULL cell never compares
equal. -/
def rowMatches (cols : List FieldInfo) (fs : List (String × Sql)) (r : Row) : Bool :=
  fs.all (fun p =>
    match rowValue cols r p.1 with
    | some cell => cell == some p.2
    | none => false)

/-- SQLite ordering on stored cells: NULLs first, numeric values before
text, numerics numerically, text lexicographically. -/
def sqliteLe : Option Sql → Option Sql → Bool
  | none, _ => true
  | some _, none => false
  | some a, some b =>
      match a, b with
      | .text s, .text t => decide (s ≤ t)
      | .text _, _ => false
      | .int n, .text _ => (fun _ => true) n
      | .real q, .text _ => (fun _ => true) q
      | .int n, .int m => decide (n ≤ m)
      | .int n, .real q => decide ((n : Rat) ≤ q)
      | .real q, .int m => decide (q ≤ (m : Rat))
      | .real q, .real p => decide (q ≤ p)

/-- Insertion sort used to model `ORDER BY` (stability of the engine's
sort is not relied upon by any claim). -/
def insertSorted (le : Row → Row → Bool) (r : Row) : List Row → List Row
  | [] => [r]
  | x :: xs => if le r x then r :: x :: xs else x :: insertSorted le r xs

/-- Sort rows by `le`. -/
def sortRows (le : Row → Row → Bool) : List Row → List Row
  | [] => []
  | x :: xs => insertSorted le x (sortRows le xs)

/-- `ORDER BY` handling of `query_table`: a leading `-` requests
descending order. -/
def orderRows (cols : List FieldInfo) (s : String) (rows : List Row) : List Row :=
  if s.startsWith "-" then
    sortRows (fun a b => sqliteLe (rowValue cols b (s.drop 1) |>.getD none)
                                   (rowValue cols a (s.drop 1) |>.getD none)) rows
  else
    sortRows (fun a b => sqliteLe (rowValue cols a s |>.getD none)
                                   (rowValue cols b s |>.getD none)) rows

/-- `query_table` from `table_builder.py`: WHERE (exact-match equality
over the supplied fields), then ORDER BY, then OFFSET/LIMIT.  The
LIMIT and OFFSET clauses are emitted only when the arguments are
truthy, so `0` behaves like `None`.  (When only `offset` is truthy the
source emits `OFFSET` without `LIMIT`, an SQLite syntax error; no claim
exercises that combination and the model applies the skip alone.) -/
def query_table (tbl : Table) (cols : List FieldInfo)
    (filters : Option (List (String × Sql))) (order_by : Option String)
    (limit offset : Option Nat) : List Row :=
  let rows := tbl.rows
  let rows := if pyTruthyFilters filters then
      rows.filter (rowMatches cols (filters.getD []))
    else rows
  let rows := if pyTruthyStr order_by then
      orderRows cols (order_by.getD "") rows
    else rows
  let rows := if pyTruthyNat offset then rows.drop (offset.getD 0) else rows
  if pyTruthyNat limit then rows.take (limit.getD 0) else rows

/-- `get_single_row`: query with an `id` filter and `limit=1`. -/
def get_single_row (tbl : Table) (cols : List FieldInfo) (row_id : Nat) : Option Row :=
  (query_table tbl cols (some [("id", .int (row_id : Int))]) none (some 1) none).head?

/-- `insert_row`: convert each supplied field's value per its column's
semantic type and insert; fields of the descriptor set absent from the
data dict are stored as NULL (SQL column default); returns
`cursor.lastrowid`.  The data dict maps field names to optional values
(`none` models an explicit Python `None`). -/
def insert_row (tbl : Table) (cols : List FieldInfo)
    (data : List (String × Option Value)) : Table × Nat :=
  let newRow : Row :=
    (tbl.nextId, cols.map (fun c =>
      match data.lookup c.field_name with
      | none => none
      | some ov => pyConvertOpt ov c.data_type))
  ({ nextId := tbl.nextId + 1, rows := tbl.rows ++ [newRow] }, tbl.nextId)

/-! ## Processing pipeline (`processor.py: process_uploaded_file`) -/

/-- The mutable dataset-record fields the pipeline touches. -/
structure Ds where
  status : String
  error_message : String
  row_count : Nat
deriving DecidableEq, Repr

/-- The outcome of each pipeline step, made explicit: any step may
raise (`Except.error` carries `str(e)`), and a successful insert step
returns the loaded row count. -/
structure StepOutcomes where
  parseStep : Except String Unit
  saveColumnsStep : Except String Unit
  createTableStep : Except String Unit
  insertStep : Except String Nat
  generateApiStep : Except String Unit
  registerStep : Except String Unit

/-- `process_uploaded_file`: run the steps in order; on the first
exception record `status='error'` with the captured message on the
dataset and re-raise; on success persist the row count (saved directly
after the insert step, before API generation), then mark the dataset
`ready` with a cleared error message. -/
def process_uploaded_file (ds : Ds) (p : StepOutcomes) : Ds × Except String Unit :=
  match p.parseStep with
  | .error e => ({ ds with status := "error", error_message := e }, .error e)
  | .ok _ =>
  match p.saveColumnsStep with
  | .error e => ({ ds with status := "error", error_message := e }, .error e)
  | .ok _ =>
  match p.createTableStep with
  | .error e => ({ ds with status := "error", error_message := e }, .error e)
  | .ok _ =>
  match p.insertStep with
  | .error e => ({ ds with status := "error", error_message := e }, .error e)
  | .ok n =>
  let ds := { ds with row_count := n }
  match p.generateApiStep with
  | .error e => ({ ds with status := "error", error_message := e }, .error e)
  | .ok _ =>
  match p.registerStep with
  | .error e => ({ ds with status := "error", error_message := e }, .error e)
  | .ok _ => ({ ds with status := "ready", error_message := "" }, .ok ())

/-! ## Registry state and dataset deletion
(`api_generator.py`, `router.py`, `core/views.py`) -/

/-- The generated (ViewSet, Serializer) pair held in `_API_REGISTRY`,
abstracted to an opaque tag. -/
structure ApiEntry where
  tag : Nat
deriving DecidableEq, Repr

/-- A dataset record as deletion sees it. -/
structure DsRec where
  slug : String
  table_name : String
deriving DecidableEq, Repr

/-- Process-wide state: the `_API_REGISTRY` dict of `api_generator.py`,
the `_registered_datasets` set of `router.py`, the set of tables in the
datastore, and the stored dataset records.  The Python set and the
datastore's table-name catalogue hold no duplicates, so removal is
embedded as filtering out the element. -/
structure AppState where
  api_registry : List (String × ApiEntry)
  registered_datasets : List String
  tables : List String
  datasets : List DsRec
deriving DecidableEq, Repr

/-- `drop_dynamic_table`: `DROP TABLE IF EXISTS` — idempotent removal. -/
def drop_dynamic_table (t : String) (st : AppState) : AppState :=
  { st with tables := st.tables.filter (fun x => x ≠ t) }

/-- `create_dynamic_table`: `CREATE TABLE IF NOT EXISTS` — a no-op when
the table already exists, never an error. -/
def create_dynamic_table (t : String) (st : AppState) : AppState :=
  if st.tables.contains t then st else { st with tables := t :: st.tables }

/-- `router.unregister_dataset_api`: discard the slug from the
`_registered_datasets` tracking set (the transport routes themselves
survive until restart, as the source documents). -/
def unregister_dataset_api (slug : String) (st : AppState) : AppState :=
  { st with registered_datasets := st.registered_datasets.filter (fun s => s ≠ slug) }

/-- `api_generator.unregister_api`: delete the slug's `_API_REGISTRY`
entry.  (Defined in the source but never invoked by dataset deletion.) -/
def unregister_api (slug : String) (st : AppState) : AppState :=
  { st with api_registry := st.api_registry.filter (fun p => p.1 ≠ slug) }

/-- `api_generator.get_api`: look a slug up in `_API_REGISTRY`. -/
def get_api (slug : String) (st : AppState) : Option ApiEntry :=
  (st.api_registry.find? (fun p => p.1 == slug)).map (fun p => p.2)

/-- `router.is_registered`. -/
def is_registered (slug : String) (st : AppState) : Bool :=
  st.registered_datasets.contains slug

/-- `DatasetViewSet.destroy` (`core/views.py`): drop the backing table
(failures are logged and swallowed; the model has no failing drop),
then `router.unregister_dataset_api`, then delete the dataset record.
It never calls `api_generator.unregister_api`. -/
def destroy (ds : DsRec) (st : AppState) : AppState :=
  let s1 := drop_dynamic_table ds.table_name st
  let s2 := unregister_dataset_api ds.slug s1
  { s2 with datasets := s2.datasets.filter (fun d => d.slug ≠ ds.slug) }

/-! ## Concrete inputs used by the theorems -/

/-- A plain text cell. -/
def aliceCell : Cell := { s := "alice", num := none, dt := none }

/-- A cell whose string parses neither numerically nor as a datetime. -/
def plainTextCell : Cell := { s := "hello", num := none, dt := none }

/-- The string `20240101`: `pd.to_numeric` parses it as the integer
20240101 and `pd.to_datetime` parses it as 2024-01-01 (the `%Y%m%d`
format), so the cell satisfies both the integer and the datetime
detector. -/
def dateDigitsA : Cell :=
  { s := "20240101", num := some 20240101,
    dt := some { day := 19723, hour := 0, minute := 0, second := 0,
                 iso := "2024-01-01T00:00:00", pystr := "2024-01-01 00:00:00" } }

/-- The string `20240102`, as `dateDigitsA`. -/
def dateDigitsB : Cell :=
  { s := "20240102", num := some 20240102,
    dt := some { day := 19724, hour := 0, minute := 0, second := 0,
                 iso := "2024-01-02T00:00:00", pystr := "2024-01-02 00:00:00" } }

/-- A date string parsing to midnight. -/
def midnightCell : Cell :=
  { s := "2024-01-01", num := none,
    dt := some { day := 19723, hour := 0, minute := 0, second := 0,
                 iso := "2024-01-01T00:00:00", pystr := "2024-01-01 00:00:00" } }

/-- A datetime string parsing to noon. -/
def noonCell : Cell :=
  { s := "2024-01-01 12:00:00", num := none,
    dt := some { day := 19723, hour := 12, minute := 0, second := 0,
                 iso := "2024-01-01T12:00:00", pystr := "2024-01-01 12:00:00" } }

/-- A 20-value column in which every value parses as a datetime and
exactly 19 of the 20 parsed values (95%) are at midnight. -/
def dateBoundaryColumn : List Cell := List.replicate 19 midnightCell ++ [noonCell]

/-- A DataFrame with two distinct raw labels that sanitize to the same
field name. -/
def dfDupLabels : DataFrame :=
  { nrows := 1,
    cols := [("Name!", [some aliceCell]), ("Name?", [some aliceCell])] }

/-- State with one processed dataset whose API has been generated. -/
def regSales : AppState :=
  { api_registry := [("sales", { tag := 0 })],
    registered_datasets := ["sales"],
    tables := ["dataset_ab12cd34"],
    datasets := [{ slug := "sales", table_name := "dataset_ab12cd34" }] }

/-- The record of that dataset. -/
def salesRec : DsRec := { slug := "sales", table_name := "dataset_ab12cd34" }

/-! ## C1 — detector priority order -/

/-- Claim C1 (refuted by the code, which contradicts the docstring of
`infer_field_type`): the claim says the detectors run in the order
boolean → integer → float → date-only → date-time, so a column
satisfying both the integer and the datetime detector is typed
integer.  The implementation checks datetime (and date) BEFORE integer
and float, so the column of digit-date strings is typed datetime; the
documented order, embedded as `infer_field_type_doc`, types the same
column integer. -/
theorem C1_detector_order_eval :
    infer_field_type [dateDigitsA, dateDigitsB] = (.DateTimeField, .datetime, none) ∧
    is_integer_column [dateDigitsA, dateDigitsB] = true ∧
    is_datetime_column [dateDigitsA, dateDigitsB] = true ∧
    infer_field_type_doc [dateDigitsA, dateDigitsB] = (.IntegerField, .integer, none) := by
  decide

/-! ## C2 — duplicate field names within one schema -/

/-- Claim C2 (counterexample): the two distinct raw labels `Name!` and
`Name?` both sanitize to `name`, and `detect_schema` performs no
post-sanitization duplicate-resolution pass, so the schema carries two
identical field names. -/
theorem C2_counterexample :
    (detect_schema dfDupLabels).map (fun fi => fi.field_name) = ["name", "name"] ∧
    ¬ ((detect_schema dfDupLabels).map (fun fi => fi.field_name)).Nodup := by
  decide

/-- The field name assigned by the per-column analysis is exactly the
sanitized raw label, in both the all-null and the inferred branch. -/
theorem analyzeColumn_field_name (nrows i : Nat) (name : String)
    (col : List (Option Cell)) :
    (analyzeColumn nrows i name col).field_name = sanitize_field_name name := by
  unfold analyzeColumn
  dsimp only
  split <;> rfl

/-- Claim C2 (amended): `detect_schema` assigns field names pointwise —
each column's field name is the sanitization of its own raw label, with
no second deduplication pass; duplicate raw labels are instead renamed
by the parser before sanitization (`renameDuplicateLabels`), so two
distinct raw labels that sanitize to the same string receive the same
field name. -/
theorem C2_amended_pointwise_sanitization (df : DataFrame) :
    (detect_schema df).map (fun fi => fi.field_name) =
      df.cols.map (fun p => sanitize_field_name p.1) := by
  unfold detect_schema
  rw [List.map_map]
  have h : ((fun fi : FieldInfo => fi.field_name) ∘
      (fun p : Nat × (String × List (Option Cell)) =>
        analyzeColumn df.nrows p.1 p.2.1 p.2.2)) =
      ((fun q : String × List (Option Cell) => sanitize_field_name q.1) ∘ Prod.snd) := by
    funext p
    exact analyzeColumn_field_name _ _ _ _
  rw [h, ← List.map_map, List.enum_map_snd]

/-! ## C4 — dataset deletion and the generated-API registry -/

/-- Claim C4 (counterexample): after deleting the dataset, looking its
slug up in the generated-API registry (`get_api` over `_API_REGISTRY`)
does NOT return absent: `destroy` never calls `unregister_api`, so the
stale entry is still served. -/
theorem C4_counterexample :
    get_api "sales" (destroy salesRec regSales) = some { tag := 0 } := by
  decide

/-- An element is never contained in the list filtered by inequality
with it. -/
theorem contains_filter_ne (l : List String) (a : String) :
    (l.filter (fun x => x ≠ a)).contains a = false := by
  rw [Bool.eq_false_iff]
  intro hc
  have hmem : a ∈ l.filter (fun x => x ≠ a) := List.mem_of_elem_eq_true hc
  have := (List.mem_filter.mp hmem).2
  simp at this

/-- Claim C4 (amended): deletion drops the backing table, removes the
slug from the router's registered-dataset set and deletes the record —
in that order — after which the router no longer reports the slug as
registered, the backing table is absent and a subsequent
`create_dynamic_table` for the same name succeeds (recreates the
table); but the `_API_REGISTRY` entry is untouched, so `get_api` still
returns whatever it returned before the deletion. -/
theorem C4_amended_destroy_effects (st : AppState) (ds : DsRec) :
    is_registered ds.slug (destroy ds st) = false ∧
    (destroy ds st).tables.contains ds.table_name = false ∧
    get_api ds.slug (destroy ds st) = get_api ds.slug st ∧
    (create_dynamic_table ds.table_name (destroy ds st)).tables.contains ds.table_name = true := by
  refine ⟨contains_filter_ne _ _, contains_filter_ne _ _, rfl, ?_⟩
  unfold create_dynamic_table
  rw [if_neg]
  · simp [destroy]
  · rw [show (destroy ds st).tables = st.tables.filter (fun x => x ≠ ds.table_name) from rfl]
    rw [contains_filter_ne]
    simp

/-! ## C5 — bulk-load cell coercion -/

/-- Claim C5 (counterexample): a cell absent in the source is NOT
always stored as SQL NULL — for a boolean-typed column,
`convert_dataframe_types` renders the missing cell as the string
`"nan"`, which is not a truthy token, so the cell is stored as the
integer 0. -/
theorem C5_counterexample :
    storedValue .boolean none = some (.int 0) := rfl

/-- Claim C5 (amended): the two conversion passes
(`convert_dataframe_types` then `bulk_insert`'s
`convert_value_for_sqlite`) compose, per cell, to: booleans always
stored as 0/1 (1 exactly for the lowercased truthy tokens, 0 for
everything else INCLUDING absent cells); integers as the numeric parse
truncated toward zero, NULL when absent or unparseable; floats as the
numeric parse, NULL when absent or unparseable; dates and datetimes as
the ISO-8601 rendering of the parsed timestamp, NULL when absent or
unparseable; text as the string coercion, NULL when absent. -/
theorem C5_amended_stored_value (dt : DataType) (cell : Option Value) :
    storedValue dt cell = storedValueSpec dt cell := by
  cases dt <;> cases cell <;>
    simp only [storedValue, storedValueSpec, df_convert, pyConvertOpt,
      convert_value_for_sqlite, Option.bind_none, Option.bind_some,
      Option.map_none', Option.map_some'] <;>
    try rfl
  case integer.some v =>
    rw [show (some v).bind pyFloat = pyFloat v from rfl]
    cases hv : pyFloat v <;> rfl
  case float.some v =>
    rw [show (some v).bind pyFloat = pyFloat v from rfl]
    cases hv : pyFloat v <;> rfl
  case date.some v =>
    rw [show (some v).bind pyToDatetime = pyToDatetime v from rfl]
    cases hv : pyToDatetime v <;> rfl
  case datetime.some v =>
    rw [show (some v).bind pyToDatetime = pyToDatetime v from rfl]
    cases hv : pyToDatetime v <;> rfl

/-! ## C6 — the date-only detector -/

/-- Claim C6 (counterexample): a column in which all 20 values parse as
datetimes and exactly 95% of the parsed values are at midnight meets
the claim's thresholds (≥90% parse, ≥95% midnight), yet the detector
rejects it (the source requires STRICTLY more than 95%), and the full
inference classifies the column datetime. -/
theorem C6_counterexample :
    100 * (dtParsed dateBoundaryColumn).length ≥ 90 * dateBoundaryColumn.length ∧
    100 * (zeroTime dateBoundaryColumn).length ≥ 95 * (dtParsed dateBoundaryColumn).length ∧
    is_date_column dateBoundaryColumn = false ∧
    infer_field_type dateBoundaryColumn = (.DateTimeField, .datetime, none) := by
  decide

/-- Claim C6 (amended): the date-only detector accepts a column iff at
least 90% of its values parse as datetimes AND strictly more than 95%
of the parsed values have a zero time-of-day; moreover, in the
implemented cascade the date-time detector runs before the date-only
one, so a column on which the date-time detector failed is always
rejected by the date-only detector as well (it falls through to the
integer detector, not to date-time). -/
theorem C6_amended_date_detector (cells : List Cell) :
    (is_date_column cells = true ↔
      (100 * (dtParsed cells).length ≥ 90 * cells.length ∧
       100 * (zeroTime cells).length > 95 * (dtParsed cells).length)) ∧
    (is_datetime_column cells = false → is_date_column cells = false) := by
  have hp : (dtParsed cells).length ≤ cells.length := List.length_filterMap_le _ _
  have hz : (zeroTime cells).length ≤ (dtParsed cells).length := List.length_filter_le _ _
  have hdate : is_date_column cells = true ↔
      ((cells.length = 0 ∨ 90 * cells.length ≤ 100 * (dtParsed cells).length) ∧
        95 * (dtParsed cells).length < 100 * (zeroTime cells).length) := by
    unfold is_date_column
    split
    · rename_i hg
      simp only [Bool.and_eq_true, bne_iff_ne, ne_eq, decide_eq_true_eq] at hg
      simp only [Bool.false_eq_true, false_iff, not_and]
      rintro (h0 | hge) <;> omega
    · rename_i hg
      simp only [Bool.and_eq_true, bne_iff_ne, ne_eq, decide_eq_true_eq, not_and,
        Nat.not_lt] at hg
      simp only [decide_eq_true_eq]
      constructor
      · intro h
        refine ⟨?_, h⟩
        by_cases h0 : cells.length = 0
        · exact Or.inl h0
        · exact Or.inr (hg h0)
      · intro h
        exact h.2
  constructor
  · rw [hdate]
    constructor
    · rintro ⟨h1, h2⟩
      rcases h1 with h0 | hge <;> constructor <;> omega
    · rintro ⟨hge, h2⟩
      exact ⟨Or.inr (by omega), by omega⟩
  · intro hdt
    have hdt' : cells.length = 0 ∨ 100 * (dtParsed cells).length < 90 * cells.length := by
      by_cases h0 : cells.length = 0
      · exact Or.inl h0
      · right
        by_contra hcon
        rw [Nat.not_lt] at hcon
        have htrue : is_datetime_column cells = true := by
          unfold is_datetime_column
          simp only [Bool.and_eq_true, decide_eq_true_eq]
          exact ⟨h0, by omega⟩
        rw [hdt] at htrue
        cases htrue
    rw [Bool.eq_false_iff]
    intro htrue
    rw [hdate] at htrue
    obtain ⟨h1, h2⟩ := htrue
    rcases hdt' with h0 | hlt
    · omega
    · rcases h1 with h0 | hge <;> omega

/-- Witness for the amended C6: a single non-parsing cell fails the
date-time detector, and the theorem then forces the date-only detector
to reject it too. -/
theorem C6_witness : is_date_column [plainTextCell] = false :=
  (C6_amended_date_detector [plainTextCell]).2 (by decide)

/-! ## C7 — the uniqueness flag -/

/-- Claim C7 (counterexample): for an all-null column in a small table
the claim's right-hand side holds (row count ≤ 10000 and the 0 distinct
non-null values equal the 0 non-null values) but the flag is false: the
all-null branch of `detect_schema` never evaluates uniqueness. -/
theorem C7_counterexample :
    ¬ (((analyzeColumn 1 0 "a" [(none : Option Cell)]).unique = true) ↔
      (1 ≤ 10000 ∧
        (([(none : Option Cell)] : List (Option Cell)).filterMap id).dedup.length =
          (([(none : Option Cell)] : List (Option Cell)).filterMap id).length)) := by
  decide

/-- Claim C7 (amended): for every column with at least one non-null
value, the unique flag is true iff the table's row count is at most
10000 and the number of distinct non-null values equals the number of
non-null values (an all-null column always reports false). -/
theorem C7_amended_unique_flag (nrows i : Nat) (name : String)
    (col : List (Option Cell)) (h : col.filterMap id ≠ []) :
    ((analyzeColumn nrows i name col).unique = true ↔
      (nrows ≤ 10000 ∧ (col.filterMap id).dedup.length = (col.filterMap id).length)) := by
  unfold analyzeColumn
  dsimp only
  rw [if_neg (by simpa [List.isEmpty_iff] using h)]
  simp [Bool.and_eq_true, decide_eq_true_eq, beq_iff_eq]

/-- Witness for the amended C7: a one-row column holding one distinct
value is flagged unique. -/
theorem C7_witness : (analyzeColumn 1 0 "a" [some aliceCell]).unique = true :=
  (C7_amended_unique_flag 1 0 "a" [some aliceCell] (by decide)).mpr (by decide)

/-! ## C10 — limit/offset truthiness -/

/-- Claim C10: `query_table` tests `limit` and `offset` for Python
truthiness, so `0` behaves exactly like `None` — no LIMIT or OFFSET
clause is applied and the caller receives every matching row, not zero
rows. -/
theorem C10_limit_zero_truthiness (tbl : Table) (cols : List FieldInfo)
    (filters : Option (List (String × Sql))) (ord : Option String) :
    query_table tbl cols filters ord (some 0) (some 0) =
      query_table tbl cols filters ord none none ∧
    query_table tbl cols none none (some 0) (some 0) = tbl.rows := by
  constructor <;> rfl

/-! ## C8 — pipeline failure/success postconditions -/

/-- Claim C8: if any pipeline step raises, the dataset ends with status
`error` and `error_message` equal to the captured message, and the
exception is re-raised to the caller; if every step succeeds, the
dataset ends `ready` with an empty error message and `row_count` equal
to the number of rows the insert step loaded — the record is never left
partially `ready`. -/
theorem C8_pipeline_postconditions (ds : Ds) (p : StepOutcomes) :
    (∀ e, (process_uploaded_file ds p).2 = .error e →
      (process_uploaded_file ds p).1.status = "error" ∧
      (process_uploaded_file ds p).1.error_message = e) ∧
    ((process_uploaded_file ds p).2 = .ok () →
      (process_uploaded_file ds p).1.status = "ready" ∧
      (process_uploaded_file ds p).1.error_message = "" ∧
      ∃ n, p.insertStep = .ok n ∧ (process_uploaded_file ds p).1.row_count = n) := by
  obtain ⟨p1, p2, p3, p4, p5, p6⟩ := p
  cases p1 <;> cases p2 <;> cases p3 <;> cases p4 <;> cases p5 <;> cases p6 <;>
    simp [process_uploaded_file]

/-- An initial dataset record. -/
def dsInit : Ds := { status := "processing", error_message := "", row_count := 0 }

/-- An all-successful run loading 3 rows. -/
def okSteps : StepOutcomes :=
  { parseStep := .ok (), saveColumnsStep := .ok (), createTableStep := .ok (),
    insertStep := .ok 3, generateApiStep := .ok (), registerStep := .ok () }

/-- Witness for C8: on an all-successful run the dataset ends `ready`
with no error and the loaded row count. -/
theorem C8_witness :
    (process_uploaded_file dsInit okSteps).1.status = "ready" ∧
    (process_uploaded_file dsInit okSteps).1.error_message = "" ∧
    ∃ n, okSteps.insertStep = .ok n ∧
      (process_uploaded_file dsInit okSteps).1.row_count = n :=
  (C8_pipeline_postconditions dsInit okSteps).2 rfl

/-! ## C9 — insert/fetch round-trip -/

/-- The freshness invariant SQLite's `AUTOINCREMENT` maintains: no
stored row carries the next id. -/
def freshNextId (tbl : Table) : Prop :=
  ∀ r ∈ tbl.rows, r.1 ≠ tbl.nextId

/-- Matching a row against the single `id` filter is deciding equality
of its id. -/
theorem rowMatches_id_filter (cols : List FieldInfo) (r : Row) (k : Nat) :
    rowMatches cols [("id", Sql.int (k : Int))] r = decide (r.1 = k) := by
  have h1 : rowMatches cols [("id", Sql.int (k : Int))] r =
      decide (Sql.int (r.1 : Int) = Sql.int (k : Int)) := by
    unfold rowMatches rowValue
    simp only [List.all_cons, List.all_nil, Bool.and_true]
    rfl
  rw [h1, decide_eq_decide]
  simp [Sql.int.injEq]

/-- Claim C9 (round-trip): inserting a row and fetching it by the
returned id yields exactly the inserted row — the returned id together
with, for each descriptor field, the supplied value coerced per the
field's semantic type (fields absent from the payload appear as NULL;
when every field is populated this is precisely the per-type coercion
of every supplied value). -/
theorem C9_insert_fetch_roundtrip (tbl : Table) (cols : List FieldInfo)
    (data : List (String × Option Value)) (hfresh : freshNextId tbl) :
    (insert_row tbl cols data).2 = tbl.nextId ∧
    get_single_row (insert_row tbl cols data).1 cols tbl.nextId =
      some (tbl.nextId, cols.map (fun c =>
        match data.lookup c.field_name with
        | none => none
        | some ov => pyConvertOpt ov c.data_type)) := by
  refine ⟨rfl, ?_⟩
  have hold : (tbl.rows.filter (rowMatches cols [("id", Sql.int (tbl.nextId : Int))])) = [] := by
    rw [List.filter_eq_nil_iff]
    intro r hr
    rw [rowMatches_id_filter]
    simp [hfresh r hr]
  have hnew : ∀ vals : List (Option Sql),
      (List.filter (rowMatches cols [("id", Sql.int (tbl.nextId : Int))])
        [((tbl.nextId, vals) : Row)]) = [((tbl.nextId, vals) : Row)] := by
    intro vals
    rw [List.filter_cons]
    rw [rowMatches_id_filter]
    simp
  unfold get_single_row query_table insert_row
  simp only [pyTruthyFilters, pyTruthyStr, pyTruthyNat, List.isEmpty_cons,
    Bool.not_false, if_true, Bool.false_eq_true, if_false, Option.getD_some,
    List.filter_append, hold, List.nil_append, hnew, List.take_succ_cons,
    List.take_zero, ite_self, List.head?_cons]

/-- A one-column descriptor set for the witness. -/
def nameCol : FieldInfo :=
  { name := "Name", field_name := "name", field_type := .CharField,
    data_type := .text, nullable := false, unique := false,
    max_length := some 10, sample_values := [], position := 0 }

/-- Witness for C9: inserting `Bob` into an empty table and fetching
row 1 returns `Bob` as text. -/
theorem C9_witness :
    (insert_row { nextId := 1, rows := [] } [nameCol]
      [("name", some (.vstr "Bob" none none))]).2 = 1 ∧
    get_single_row (insert_row { nextId := 1, rows := [] } [nameCol]
      [("name", some (.vstr "Bob" none none))]).1 [nameCol] 1 =
      some (1, [some (.text "Bob")]) :=
  C9_insert_fetch_roundtrip { nextId := 1, rows := [] } [nameCol]
    [("name", some (.vstr "Bob" none none))] (by intro r hr; cases hr)

/-! ## C3 — idempotence of name sanitization

Helper development: characters produced by the sanitizer are fixed by
every phase except the underscore strip, which can only act when
truncation has exposed a trailing underscore. -/

/-- No two adjacent underscores. -/
def NoDupUnderscore (l : List Char) : Prop :=
  List.Chain' (fun a b => ¬(a = '_' ∧ b = '_')) l

theorem toNat_ranges_of_allowed (c : Char) (h : isAllowedChar c = true) :
    (97 ≤ c.toNat ∧ c.toNat ≤ 122) ∨ (48 ≤ c.toNat ∧ c.toNat ≤ 57) ∨ c.toNat = 95 := by
  simp only [isAllowedChar, Bool.or_eq_true, Bool.and_eq_true, decide_eq_true_eq,
    beq_iff_eq] at h
  rcases h with (⟨h1, h2⟩ | ⟨h1, h2⟩) | h1
  · exact Or.inl ⟨h1, h2⟩
  · exact Or.inr (Or.inl ⟨h1, h2⟩)
  · subst h1
    exact Or.inr (Or.inr rfl)

theorem toLower_of_allowed (c : Char) (h : isAllowedChar c = true) : c.toLower = c := by
  have hr := toNat_ranges_of_allowed c h
  unfold Char.toLower
  rw [if_neg]
  omega

theorem notSpace_of_allowed (c : Char) (h : isAllowedChar c = true) : pyIsSpace c = false := by
  have hr := toNat_ranges_of_allowed c h
  rw [Bool.eq_false_iff]
  intro ht
  simp only [pyIsSpace, Char.isWhitespace, Bool.or_eq_true, decide_eq_true_eq,
    beq_iff_eq] at ht
  rcases ht with ((((h1 | h1) | h1) | h1) | h1) | h1 <;>
    (subst h1; revert hr; decide)

theorem replaceChar_allowed (c : Char) : isAllowedChar (replaceChar c) = true := by
  unfold replaceChar
  by_cases h : isAllowedChar c = true
  · rw [if_pos h]
    exact h
  · rw [if_neg h]
    decide

theorem replaceChar_fixed (c : Char) (h : isAllowedChar c = true) : replaceChar c = c := by
  unfold replaceChar
  rw [if_pos h]

theorem map_fixed {α : Type} (f : α → α) (l : List α) (h : ∀ c ∈ l, f c = c) :
    l.map f = l := by
  induction l with
  | nil => rfl
  | cons a r ih =>
      rw [List.map_cons, h a (by simp), ih (fun c hc => h c (by simp [hc]))]

theorem dropWhile_eq_self_of_head {α : Type} (p : α → Bool) (l : List α)
    (h : ∀ c ∈ l.head?, p c = false) : l.dropWhile p = l := by
  cases l with
  | nil => rfl
  | cons a r =>
      rw [List.dropWhile_cons, h a rfl]
      simp

theorem dropTrailing_eq_self (p : Char → Bool) (l : List Char)
    (h : ∀ c ∈ l.getLast?, p c = false) : dropTrailing p l = l := by
  unfold dropTrailing
  rw [dropWhile_eq_self_of_head p l.reverse (by rw [List.head?_reverse]; exact h),
    List.reverse_reverse]

theorem dropTrailing_leads (p : Char → Bool) (l : List Char) : dropTrailing p l <+: l := by
  rw [← List.reverse_suffix]
  unfold dropTrailing
  rw [List.reverse_reverse]
  exact List.dropWhile_suffix p

theorem dropTrailing_subset (p : Char → Bool) (l : List Char) : dropTrailing p l ⊆ l :=
  (dropTrailing_leads p l).subset

theorem head?_of_leads {α : Type} {l₁ l₂ : List α} (h : l₁ <+: l₂) (hne : l₁ ≠ []) :
    l₁.head? = l₂.head? := by
  obtain ⟨t, rfl⟩ := h
  cases l₁ with
  | nil => exact absurd rfl hne
  | cons a r => rfl

theorem head_dropWhile {α : Type} (p : α → Bool) (l : List α) :
    ∀ c ∈ (l.dropWhile p).head?, p c = false := by
  induction l with
  | nil => intro c hc; cases hc
  | cons a r ih =>
      intro c hc
      rw [List.dropWhile_cons] at hc
      by_cases hpa : p a = true
      · rw [if_pos hpa] at hc
        exact ih c hc
      · rw [if_neg hpa] at hc
        have : c = a := by
          have : some a = some c := hc
          exact (Option.some.inj this).symm
        rw [this, Bool.eq_false_iff]
        exact hpa

theorem squash_head (a : Char) (l : List Char) :
    (squashUnderscores (a :: l)).head? = some a := by
  induction l generalizing a with
  | nil => rfl
  | cons b rest ih =>
      show (if a == '_' && b == '_' then squashUnderscores (b :: rest)
            else a :: squashUnderscores (b :: rest)).head? = some a
      by_cases hab : (a == '_' && b == '_') = true
      · rw [if_pos hab, ih b]
        simp only [Bool.and_eq_true, beq_iff_eq] at hab
        rw [hab.1, hab.2]
      · rw [if_neg hab]
        rfl

theorem squash_subset : ∀ (l : List Char), squashUnderscores l ⊆ l
  | [] => by simp [squashUnderscores]
  | [a] => by simp [squashUnderscores]
  | a :: b :: rest => by
      intro c hc
      rw [show squashUnderscores (a :: b :: rest) =
        if a == '_' && b == '_' then squashUnderscores (b :: rest)
        else a :: squashUnderscores (b :: rest) from rfl] at hc
      by_cases hab : (a == '_' && b == '_') = true
      · rw [if_pos hab] at hc
        exact List.mem_cons_of_mem a (squash_subset (b :: rest) hc)
      · rw [if_neg hab] at hc
        rcases List.mem_cons.mp hc with h | h
        · exact h ▸ List.mem_cons_self a _
        · exact List.mem_cons_of_mem a (squash_subset (b :: rest) h)

theorem squash_nodd : ∀ (l : List Char), NoDupUnderscore (squashUnderscores l)
  | [] => List.chain'_nil
  | [a] => List.chain'_singleton a
  | a :: b :: rest => by
      rw [show squashUnderscores (a :: b :: rest) =
        if a == '_' && b == '_' then squashUnderscores (b :: rest)
        else a :: squashUnderscores (b :: rest) from rfl]
      by_cases hab : (a == '_' && b == '_') = true
      · rw [if_pos hab]
        exact squash_nodd (b :: rest)
      · rw [if_neg hab]
        rw [NoDupUnderscore, List.chain'_cons']
        refine ⟨?_, squash_nodd (b :: rest)⟩
        intro y hy
        rw [squash_head] at hy
        have hyb : y = b := (Option.mem_some_iff.mp hy).symm
        subst hyb
        intro hcon
        simp only [Bool.and_eq_true, beq_iff_eq] at hab
        exact hab ⟨hcon.1, hcon.2⟩

theorem squash_fixed : ∀ (l : List Char), NoDupUnderscore l → squashUnderscores l = l
  | [], _ => rfl
  | [a], _ => rfl
  | a :: b :: rest, h => by
      rw [show squashUnderscores (a :: b :: rest) =
        if a == '_' && b == '_' then squashUnderscores (b :: rest)
        else a :: squashUnderscores (b :: rest) from rfl]
      have hab : ¬ ((a == '_' && b == '_') = true) := by
        intro hc
        simp only [Bool.and_eq_true, beq_iff_eq] at hc
        exact (List.chain'_cons.mp h).1 hc
      rw [if_neg hab, squash_fixed (b :: rest) (List.Chain'.tail h)]

theorem noDD_reverse (l : List Char) (h : NoDupUnderscore l) :
    NoDupUnderscore l.reverse := by
  unfold NoDupUnderscore at *
  rw [List.chain'_reverse]
  exact List.Chain'.imp (fun a b hab hcon => hab ⟨hcon.2, hcon.1⟩) h

theorem noDD_dropTrailing (p : Char → Bool) (l : List Char) (h : NoDupUnderscore l) :
    NoDupUnderscore (dropTrailing p l) := by
  unfold dropTrailing
  exact noDD_reverse _ (List.Chain'.suffix (noDD_reverse l h) (List.dropWhile_suffix p))

theorem noDD_stripUnderscores (l : List Char) (h : NoDupUnderscore l) :
    NoDupUnderscore (stripUnderscores l) := by
  unfold stripUnderscores
  exact noDD_dropTrailing _ _ (List.Chain'.suffix h (List.dropWhile_suffix _))

theorem stripUnderscores_subset (l : List Char) : stripUnderscores l ⊆ l := by
  intro c hc
  have h1 := dropTrailing_subset (· == '_') (l.dropWhile (· == '_')) hc
  exact (List.dropWhile_suffix (· == '_')).subset h1

theorem head_stripUnderscores (l : List Char) :
    ∀ c ∈ (stripUnderscores l).head?, (c == '_') = false := by
  intro c hc
  have hne : stripUnderscores l ≠ [] := by
    intro he
    rw [he] at hc
    cases hc
  unfold stripUnderscores at hc hne
  rw [head?_of_leads (dropTrailing_leads _ _) hne] at hc
  exact head_dropWhile _ _ c hc

/-! Facts about the sanitizer stages. -/

theorem saniCore_allowed (l : List Char) : ∀ c ∈ saniCore l, isAllowedChar c = true := by
  intro c hc
  have h1 := stripUnderscores_subset _ hc
  have h2 := squash_subset _ h1
  obtain ⟨d, _, rfl⟩ := List.mem_map.mp h2
  exact replaceChar_allowed d

theorem saniCore_nodd (l : List Char) : NoDupUnderscore (saniCore l) :=
  noDD_stripUnderscores _ (squash_nodd _)

theorem saniCore_head (l : List Char) :
    ∀ c ∈ (saniCore l).head?, (c == '_') = false :=
  head_stripUnderscores _

theorem saniNonEmpty_ne (l : List Char) : saniNonEmpty l ≠ [] := by
  unfold saniNonEmpty
  by_cases h : (saniCore l).isEmpty = true
  · rw [if_pos h]
    decide
  · rw [if_neg h]
    intro he
    exact h (by rw [he]; rfl)

theorem saniNonEmpty_allowed (l : List Char) :
    ∀ c ∈ saniNonEmpty l, isAllowedChar c = true := by
  unfold saniNonEmpty
  by_cases h : (saniCore l).isEmpty = true
  · rw [if_pos h]
    decide
  · rw [if_neg h]
    exact saniCore_allowed l

theorem saniNonEmpty_nodd (l : List Char) : NoDupUnderscore (saniNonEmpty l) := by
  unfold saniNonEmpty
  by_cases h : (saniCore l).isEmpty = true
  · rw [if_pos h]
    show List.Chain' (fun a b => ¬(a = '_' ∧ b = '_')) ['c', 'o', 'l', 'u', 'm', 'n']
    simp only [List.chain'_cons, List.chain'_singleton, and_true]
    refine ⟨?_, ?_, ?_, ?_, ?_⟩ <;> (rintro ⟨h1, h2⟩; exact absurd h1 (by decide))
  · rw [if_neg h]
    exact saniCore_nodd l

theorem saniNonEmpty_head (l : List Char) :
    ∀ c ∈ (saniNonEmpty l).head?, (c == '_') = false := by
  unfold saniNonEmpty
  by_cases h : (saniCore l).isEmpty = true
  · rw [if_pos h]
    intro c hc
    have : c = 'c' := (Option.mem_some_iff.mp hc).symm
    rw [this]
    decide
  · rw [if_neg h]
    exact saniCore_head l

theorem saniDigitMark_ne (l : List Char) : saniDigitMark l ≠ [] := by
  unfold saniDigitMark
  by_cases h : ((saniNonEmpty l).headD 'a').isDigit = true
  · rw [if_pos h]
    simp
  · rw [if_neg h]
    exact saniNonEmpty_ne l

theorem saniDigitMark_allowed (l : List Char) :
    ∀ c ∈ saniDigitMark l, isAllowedChar c = true := by
  unfold saniDigitMark
  by_cases h : ((saniNonEmpty l).headD 'a').isDigit = true
  · rw [if_pos h]
    intro c hc
    rcases List.mem_append.mp hc with h1 | h1
    · have hall : ∀ x ∈ "col_".data, isAllowedChar x = true := by decide
      exact hall c h1
    · exact saniNonEmpty_allowed l c h1
  · rw [if_neg h]
    exact saniNonEmpty_allowed l

theorem saniDigitMark_nodd (l : List Char) : NoDupUnderscore (saniDigitMark l) := by
  unfold saniDigitMark
  by_cases h : ((saniNonEmpty l).headD 'a').isDigit = true
  · rw [if_pos h]
    unfold NoDupUnderscore
    rw [List.chain'_append]
    refine ⟨?_, saniNonEmpty_nodd l, ?_⟩
    · show List.Chain' (fun a b => ¬(a = '_' ∧ b = '_')) ['c', 'o', 'l', '_']
      exact List.chain'_cons.mpr ⟨fun hcon => absurd hcon.1 (by decide),
        List.chain'_cons.mpr ⟨fun hcon => absurd hcon.1 (by decide),
          List.chain'_cons.mpr ⟨fun hcon => absurd hcon.1 (by decide),
            List.chain'_singleton _⟩⟩⟩
    · intro x hx y hy
      have hy' := saniNonEmpty_head l y hy
      rw [beq_eq_false_iff_ne] at hy'
      intro hcon
      exact hy' hcon.2
  · rw [if_neg h]
    exact saniNonEmpty_nodd l

theorem saniDigitMark_head (l : List Char) :
    ∀ c ∈ (saniDigitMark l).head?, (c == '_') = false ∧ c.isDigit = false := by
  unfold saniDigitMark
  by_cases h : ((saniNonEmpty l).headD 'a').isDigit = true
  · rw [if_pos h]
    intro c hc
    have : c = 'c' := (Option.mem_some_iff.mp hc).symm
    rw [this]
    exact ⟨by decide, by decide⟩
  · rw [if_neg h]
    intro c hc
    refine ⟨saniNonEmpty_head l c hc, ?_⟩
    have hne := saniNonEmpty_ne l
    obtain ⟨b, rest, hbl⟩ := List.exists_cons_of_ne_nil hne
    rw [hbl] at hc
    have hcb : c = b := (Option.mem_some_iff.mp hc).symm
    rw [Bool.eq_false_iff]
    intro hdig
    apply h
    rw [hbl, List.headD_eq_head?_getD]
    rw [show (b :: rest).head? = some b from rfl, Option.getD_some, ← hcb]
    exact hdig

theorem saniReservedMark_ne (l : List Char) : saniReservedMark l ≠ [] := by
  unfold saniReservedMark
  by_cases h : (RESERVED_WORDS.any (fun w => w.data == saniDigitMark l)) = true
  · rw [if_pos h]
    simp
  · rw [if_neg h]
    exact saniDigitMark_ne l

theorem saniReservedMark_allowed (l : List Char) :
    ∀ c ∈ saniReservedMark l, isAllowedChar c = true := by
  unfold saniReservedMark
  by_cases h : (RESERVED_WORDS.any (fun w => w.data == saniDigitMark l)) = true
  · rw [if_pos h]
    intro c hc
    rcases List.mem_append.mp hc with h1 | h1
    · have hall : ∀ x ∈ "field_".data, isAllowedChar x = true := by decide
      exact hall c h1
    · exact saniDigitMark_allowed l c h1
  · rw [if_neg h]
    exact saniDigitMark_allowed l

theorem saniReservedMark_nodd (l : List Char) : NoDupUnderscore (saniReservedMark l) := by
  unfold saniReservedMark
  by_cases h : (RESERVED_WORDS.any (fun w => w.data == saniDigitMark l)) = true
  · rw [if_pos h]
    unfold NoDupUnderscore
    rw [List.chain'_append]
    refine ⟨?_, saniDigitMark_nodd l, ?_⟩
    · show List.Chain' (fun a b => ¬(a = '_' ∧ b = '_')) ['f', 'i', 'e', 'l', 'd', '_']
      exact List.chain'_cons.mpr ⟨fun hcon => absurd hcon.1 (by decide),
        List.chain'_cons.mpr ⟨fun hcon => absurd hcon.1 (by decide),
          List.chain'_cons.mpr ⟨fun hcon => absurd hcon.1 (by decide),
            List.chain'_cons.mpr ⟨fun hcon => absurd hcon.1 (by decide),
              List.chain'_cons.mpr ⟨fun hcon => absurd hcon.1 (by decide),
                List.chain'_singleton _⟩⟩⟩⟩⟩
    · intro x hx y hy
      have hy' := (saniDigitMark_head l y hy).1
      rw [beq_eq_false_iff_ne] at hy'
      intro hcon
      exact hy' hcon.2
  · rw [if_neg h]
    exact saniDigitMark_nodd l

theorem saniReservedMark_head (l : List Char) :
    ∀ c ∈ (saniReservedMark l).head?, (c == '_') = false ∧ c.isDigit = false := by
  unfold saniReservedMark
  by_cases h : (RESERVED_WORDS.any (fun w => w.data == saniDigitMark l)) = true
  · rw [if_pos h]
    intro c hc
    have : c = 'f' := (Option.mem_some_iff.mp hc).symm
    rw [this]
    exact ⟨by decide, by decide⟩
  · rw [if_neg h]
    exact saniDigitMark_head l

theorem reserved_no_underscore : ∀ w ∈ RESERVED_WORDS, '_' ∉ w.data := by decide

theorem reserved_short : ∀ w ∈ RESERVED_WORDS, w.data.length ≤ 8 := by decide

theorem sanitizeChars_ne (l : List Char) : sanitizeChars l ≠ [] := by
  unfold sanitizeChars
  by_cases h : (saniReservedMark l).length > 63
  · rw [if_pos h]
    obtain ⟨b, rest, hbl⟩ := List.exists_cons_of_ne_nil (saniReservedMark_ne l)
    rw [hbl]
    simp
  · rw [if_neg h]
    exact saniReservedMark_ne l

theorem sanitizeChars_allowed (l : List Char) :
    ∀ c ∈ sanitizeChars l, isAllowedChar c = true := by
  unfold sanitizeChars
  by_cases h : (saniReservedMark l).length > 63
  · rw [if_pos h]
    intro c hc
    exact saniReservedMark_allowed l c (List.take_subset _ _ hc)
  · rw [if_neg h]
    exact saniReservedMark_allowed l

set_option maxHeartbeats 1000000 in
theorem sanitizeChars_nodd (l : List Char) : NoDupUnderscore (sanitizeChars l) := by
  unfold sanitizeChars
  by_cases h : (saniReservedMark l).length > 63
  · rw [if_pos h]
    exact List.Chain'.take (saniReservedMark_nodd l) 63
  · rw [if_neg h]
    exact saniReservedMark_nodd l

theorem sanitizeChars_head (l : List Char) :
    ∀ c ∈ (sanitizeChars l).head?, (c == '_') = false ∧ c.isDigit = false := by
  unfold sanitizeChars
  by_cases h : (saniReservedMark l).length > 63
  · rw [if_pos h]
    intro c hc
    obtain ⟨b, rest, hbl⟩ := List.exists_cons_of_ne_nil (saniReservedMark_ne l)
    rw [hbl] at hc
    rw [show List.take 63 (b :: rest) = b :: List.take 62 rest from rfl] at hc
    have hcb : c = b := (Option.mem_some_iff.mp hc).symm
    rw [hcb]
    exact saniReservedMark_head l b (by rw [hbl]; rfl)
  · rw [if_neg h]
    exact saniReservedMark_head l

theorem sanitizeChars_len (l : List Char) : (sanitizeChars l).length ≤ 63 := by
  unfold sanitizeChars
  by_cases h : (saniReservedMark l).length > 63
  · rw [if_pos h, List.length_take]
    omega
  · rw [if_neg h]
    omega

theorem sanitizeChars_not_reserved (l : List Char) :
    RESERVED_WORDS.any (fun w => w.data == sanitizeChars l) = false := by
  rw [Bool.eq_false_iff]
  intro hany
  rw [List.any_eq_true] at hany
  obtain ⟨w, hw, hbeq⟩ := hany
  rw [beq_iff_eq] at hbeq
  unfold sanitizeChars at hbeq
  by_cases hlen : (saniReservedMark l).length > 63
  · rw [if_pos hlen] at hbeq
    have h1 : w.data.length ≤ 8 := reserved_short w hw
    have h2 : (List.take 63 (saniReservedMark l)).length = 63 := by
      rw [List.length_take]
      omega
    rw [hbeq, h2] at h1
    omega
  · rw [if_neg hlen] at hbeq
    by_cases hres : (RESERVED_WORDS.any (fun w' => w'.data == saniDigitMark l)) = true
    · rw [saniReservedMark, if_pos hres] at hbeq
      have hmem : '_' ∈ w.data := by
        rw [hbeq]
        exact List.mem_append_left _ (by decide)
      exact reserved_no_underscore w hw hmem
    · rw [saniReservedMark, if_neg hres] at hbeq
      exact hres (List.any_eq_true.mpr ⟨w, hw, by rw [beq_iff_eq]; exact hbeq⟩)

/-- Every phase of the sanitizer fixes a name that is nonempty, made of
allowed characters, has no doubled underscore, does not start with an
underscore or a digit, is not reserved, fits in 63 characters — and
does not END with an underscore.  All but the last condition hold for
every sanitizer output; the last can fail exactly when truncation cut
the name directly after an underscore. -/
theorem sanitizeChars_fixed (y : List Char)
    (hne : y ≠ [])
    (hall : ∀ c ∈ y, isAllowedChar c = true)
    (hnodd : NoDupUnderscore y)
    (hhead : ∀ c ∈ y.head?, (c == '_') = false ∧ c.isDigit = false)
    (hres : RESERVED_WORDS.any (fun w => w.data == y) = false)
    (hlen : y.length ≤ 63)
    (hlast : ∀ c ∈ y.getLast?, (c == '_') = false) :
    sanitizeChars y = y := by
  have hstrip : pyStrip y = y := by
    unfold pyStrip
    rw [dropWhile_eq_self_of_head pyIsSpace y
      (fun c hc => notSpace_of_allowed c (hall c (List.mem_of_mem_head? hc)))]
    exact dropTrailing_eq_self pyIsSpace y
      (fun c hc => notSpace_of_allowed c (hall c (List.mem_of_mem_getLast? hc)))
  have hlower : y.map Char.toLower = y :=
    map_fixed _ _ (fun c hc => toLower_of_allowed c (hall c hc))
  have hrepl : y.map replaceChar = y :=
    map_fixed _ _ (fun c hc => replaceChar_fixed c (hall c hc))
  have hsquash : squashUnderscores y = y := squash_fixed y hnodd
  have hstrip2 : stripUnderscores y = y := by
    unfold stripUnderscores
    rw [dropWhile_eq_self_of_head (· == '_') y (fun c hc => (hhead c hc).1)]
    exact dropTrailing_eq_self (· == '_') y hlast
  have hcore : saniCore y = y := by
    unfold saniCore
    rw [hstrip, hlower, hrepl, hsquash, hstrip2]
  have hne5 : saniNonEmpty y = y := by
    unfold saniNonEmpty
    rw [hcore, if_neg (fun hc => hne (List.isEmpty_iff.mp hc))]
  have hdig : saniDigitMark y = y := by
    unfold saniDigitMark
    rw [hne5]
    obtain ⟨b, rest, hbl⟩ := List.exists_cons_of_ne_nil hne
    have hb := hhead b (by rw [hbl]; rfl)
    rw [if_neg]
    rw [hbl, List.headD_eq_head?_getD]
    rw [show (b :: rest).head? = some b from rfl, Option.getD_some]
    rw [hb.2]
    simp
  have hres7 : saniReservedMark y = y := by
    unfold saniReservedMark
    rw [hdig, if_neg (by rw [hres]; simp)]
  unfold sanitizeChars
  rw [hres7, if_neg (by omega)]

/-- A 64-character label of sanitizer-fixed characters whose 63rd
character is an underscore: truncation cuts directly after the
underscore, leaving a name with a trailing underscore. -/
def badName : String := String.mk (List.replicate 62 'a' ++ ['_', 'b'])

/-- Claim C3 (counterexample): sanitization is NOT idempotent on inputs
whose sanitized form is produced by the 63-character truncation step —
here the first pass truncates to 62 `a`s followed by `_`, and the
second pass strips that trailing underscore. -/
theorem C3_counterexample :
    sanitize_field_name (sanitize_field_name badName) ≠ sanitize_field_name badName ∧
    sanitize_field_name badName = String.mk (List.replicate 62 'a' ++ ['_']) ∧
    sanitize_field_name (sanitize_field_name badName) = String.mk (List.replicate 62 'a') := by
  refine ⟨?_, by decide, by decide⟩
  decide

/-- Claim C3 (amended): sanitization is idempotent for every input
whose sanitized form does not end with an underscore — equivalently,
whenever the 63-character truncation does not cut the name directly
after an underscore.  (The counterexample shows the excluded case is
real: a truncation-exposed trailing underscore is stripped by the
second pass.) -/
theorem C3_amended_idempotent_no_trailing_underscore (x : String)
    (h : (sanitize_field_name x).data.getLast? ≠ some '_') :
    sanitize_field_name (sanitize_field_name x) = sanitize_field_name x := by
  have h2 : sanitize_field_name (sanitize_field_name x) =
      String.mk (sanitizeChars ((sanitize_field_name x).data)) := rfl
  have h4 : sanitize_field_name x = String.mk (sanitizeChars x.data) := rfl
  have h3 : (sanitize_field_name x).data = sanitizeChars x.data := by rw [h4]
  rw [h2, h3, h4]
  refine congrArg String.mk ?_
  refine sanitizeChars_fixed _ (sanitizeChars_ne _) (sanitizeChars_allowed _)
    (sanitizeChars_nodd _) (sanitizeChars_head _) (sanitizeChars_not_reserved _)
    (sanitizeChars_len _) ?_
  intro c hc
  rw [beq_eq_false_iff_ne]
  intro hce
  apply h
  have hlast := Option.mem_def.mp hc
  rw [h3, hlast, hce]

/-- Witness for the amended C3: `abc` sanitizes to itself and
re-sanitizing is the identity. -/
theorem C3_witness :
    sanitize_field_name (sanitize_field_name "abc") = sanitize_field_name "abc" :=
  C3_amended_idempotent_no_trailing_underscore "abc" (by decide)

end FileToApi
